import Mathlib

/-!
Shallow embedding of the swipe-gesture engine of `swipe-handler.js`
(the `SwipeHandler` class): touch-state capture, swipe validation,
direction classification, momentum computation and scroll-target
resolution.  Pixel coordinates, timestamps and scroll offsets are
modelled as rationals; DOM side effects (callback invocation, gradient
display, scroll commands, section snapping) are modelled as an output
command list.
-/

namespace Swipe

/-- Swipe direction strings returned by `SwipeHandler._getSwipeDirection`
(the strings up, down, left, right).  The JS function always returns one of
these non-empty strings; the spec-level value `none` corresponds to the
validity gate in `_handleTouchEnd` failing, in which case
`_getSwipeDirection` is never called (modelled with `Option Direction`). -/
inductive Direction where
  | up
  | down
  | left
  | right
deriving DecidableEq, Repr

/-- Handler configuration: `DEFAULT_CONFIG` merged with the user-supplied
config.  `scrollSmoothness` is a pass-through string handed to
`window.scrollTo` and has no effect on any modelled value, so it is omitted.
`onSwipe` is an externally supplied function; its presence
(the typeof-function test on `config.onSwipe`) is modelled by `hasOnSwipe`, and whether a
particular invocation throws is supplied with each touch-end event. -/
structure Config where
  minSwipeDistance : ℚ
  snapToSections : Bool
  showVisualFeedback : Bool
  feedbackDuration : ℚ
  verticalOnly : Bool
  horizontalOnly : Bool
  enableMomentum : Bool
  momentumMultiplier : ℚ
  enableGradient : Bool
  hasOnSwipe : Bool
deriving DecidableEq, Repr

/-- Defaults from `DEFAULT_CONFIG` in `swipe-handler.js`. -/
def DEFAULT_CONFIG : Config :=
  { minSwipeDistance := 26
    snapToSections := false
    showVisualFeedback := true
    feedbackDuration := 300
    verticalOnly := true
    horizontalOnly := false
    enableMomentum := true
    momentumMultiplier := 5/2
    enableGradient := true
    hasOnSwipe := false }

/-- Mutable per-handler state.  `touchStartX/Y/Time` are `null` outside an
interaction (modelled with `Option`).  `overlayTop`/`overlayBottom` record
whether `this.gradientOverlay` / `this.gradientOverlayBottom` are non-null,
i.e. whether the two overlay DOM nodes created by `_createGradientOverlay`
are currently attached (they are removed and nulled by `destroy`). -/
structure State where
  touchStartX : Option ℚ
  touchStartY : Option ℚ
  touchStartTime : Option ℚ
  lastScrollTop : ℚ
  isScrolling : Bool
  overlayTop : Bool
  overlayBottom : Bool
deriving DecidableEq, Repr

/-- Constructor state: all touch fields null, `lastScrollTop = 0`,
`isScrolling = false`; the gradient overlays are created exactly when
`showVisualFeedback && enableGradient`. -/
def initState (cfg : Config) : State :=
  { touchStartX := none
    touchStartY := none
    touchStartTime := none
    lastScrollTop := 0
    isScrolling := false
    overlayTop := cfg.showVisualFeedback && cfg.enableGradient
    overlayBottom := cfg.showVisualFeedback && cfg.enableGradient }

/-- Observable side effects issued by the handler:
invocation of the external `onSwipe` callback with `(direction, deltas)`,
the opacity pulse of a gradient overlay, the `window.scrollTo` command with
its computed `top`, and the deferred `_snapToNearestSection` call (whose
DOM-dependent target is outside the model). -/
inductive Cmd where
  | invokeOnSwipe (dir : Direction) (deltaX deltaY deltaTime : ℚ)
  | gradientPulse (dir : Direction)
  | scrollTo (top : ℚ)
  | snap (dir : Direction)
deriving DecidableEq, Repr

/-- Ambient browser values read by a handler invocation: `Date.now()` and
`window.pageYOffset || document.documentElement.scrollTop`. -/
structure Env where
  now : ℚ
  scrollTop : ℚ
deriving DecidableEq, Repr

/-- Raw touch events as the bound listeners see them.  The payload is
`e.touches?.[0]` (for start/move) or `e.changedTouches?.[0]` (for end) as an
optional `(clientX, clientY)` pair; `cbThrows` says whether the external
`onSwipe` callback would throw if invoked during this touch-end.
`destroy` models a call to `handle.destroy()`. -/
inductive Event where
  | touchstart (env : Env) (touch : Option (ℚ × ℚ))
  | touchmove (touch : Option (ℚ × ℚ))
  | touchend (env : Env) (touch : Option (ℚ × ℚ)) (cbThrows : Bool)
  | touchcancel
  | destroy
deriving DecidableEq, Repr

/-- `SwipeHandler._resetTouch`: nulls the origin sample and clears the axis
lock.  (`lastScrollTop` and the overlay fields are untouched.) -/
def resetTouch (s : State) : State :=
  { s with touchStartX := none, touchStartY := none,
           touchStartTime := none, isScrolling := false }

/-- `SwipeHandler._handleTouchStart`: ignores the event when `e.touches` is
empty, otherwise records the origin sample, the current page offset, and
clears the axis lock. -/
def handleTouchStart (env : Env) (s : State) (touch : Option (ℚ × ℚ)) :
    State :=
  match touch with
  | none => s
  | some (x, y) =>
      { s with touchStartX := some x
               touchStartY := some y
               touchStartTime := some env.now
               lastScrollTop := env.scrollTop
               isScrolling := false }

/-- `SwipeHandler._handleTouchMove`: returns early when `touchStartY` is
null or the touch list is empty; otherwise locks the axis (`isScrolling`)
once the dominant axis matches the configured mode.  JS arithmetic coerces
`null` to `0`, which `Option.getD 0` reproduces (the branch where it would
matter is unreachable since the fields are set together). -/
def handleTouchMove (cfg : Config) (s : State) (touch : Option (ℚ × ℚ)) :
    State :=
  if s.touchStartY = none then s
  else
    match touch with
    | none => s
    | some (x, y) =>
        let deltaX := |x - s.touchStartX.getD 0|
        let deltaY := |y - s.touchStartY.getD 0|
        if !s.isScrolling then
          if cfg.verticalOnly && deltaY > deltaX then
            { s with isScrolling := true }
          else if cfg.horizontalOnly && deltaX > deltaY then
            { s with isScrolling := true }
          else if !cfg.verticalOnly && !cfg.horizontalOnly then
            { s with isScrolling := true }
          else s
        else s

/-- Validity gate of `_handleTouchEnd` (lines 141-146):
`(isVerticalSwipe || isHorizontalSwipe || isSwipe) &&
 (absDeltaY >= minSwipeDistance || absDeltaX >= minSwipeDistance)`. -/
def isValidSwipe (cfg : Config) (deltaX deltaY : ℚ) : Bool :=
  let absDeltaX := |deltaX|
  let absDeltaY := |deltaY|
  ((cfg.verticalOnly && decide (absDeltaY > absDeltaX)) ||
   (cfg.horizontalOnly && decide (absDeltaX > absDeltaY)) ||
   (!cfg.verticalOnly && !cfg.horizontalOnly)) &&
  (decide (absDeltaY ≥ cfg.minSwipeDistance) ||
   decide (absDeltaX ≥ cfg.minSwipeDistance))

/-- `SwipeHandler._getSwipeDirection`. -/
def getSwipeDirection (cfg : Config) (deltaX deltaY : ℚ) : Direction :=
  if cfg.verticalOnly then
    if deltaY > 0 then .down else .up
  else if cfg.horizontalOnly then
    if deltaX > 0 then .right else .left
  else
    if |deltaY| > |deltaX| then
      if deltaY > 0 then .down else .up
    else
      if deltaX > 0 then .right else .left

/-- Spec-level classification: the direction of the `SwipeResult` produced at
interaction end, `none` when the validity gate rejects the interaction. -/
def classify (cfg : Config) (deltaX deltaY : ℚ) : Option Direction :=
  if isValidSwipe cfg deltaX deltaY then
    some (getSwipeDirection cfg deltaX deltaY)
  else
    none

/-- Momentum gate of `_handleVerticalScroll`:
`this.config.enableMomentum && velocity > 0.5` where
`velocity = Math.abs(deltaY) / deltaTime`.  JS number semantics when
`deltaTime = 0`: `x / 0 = Infinity` for `x > 0` (so the comparison is true)
and `0 / 0 = NaN` (every comparison false); the `deltaTime = 0` branch below
encodes exactly that. -/
def momentumApplies (cfg : Config) (absDeltaY deltaTime : ℚ) : Bool :=
  cfg.enableMomentum &&
    (if deltaTime = 0 then decide (0 < absDeltaY)
     else decide (absDeltaY / deltaTime > 1/2))

/-- Velocity factor `Math.min(velocity, 2)` used inside the momentum branch.
When `deltaTime = 0` and `absDeltaY > 0` the JS velocity is `Infinity` and
`Math.min(Infinity, 2) = 2`.  (For `deltaTime = 0, absDeltaY = 0` the JS
value would be `NaN`, but the momentum branch is not taken there, so this
function is never consulted on that corner.) -/
def velocityFactor (absDeltaY deltaTime : ℚ) : ℚ :=
  if deltaTime = 0 then 2 else min (absDeltaY / deltaTime) 2

/-- Scroll distance computed by `_handleVerticalScroll` (lines 164-170):
`scrollAmount = Math.abs(deltaY)`, multiplied by
`momentumMultiplier * Math.min(velocity, 2)` when the momentum gate holds. -/
def scrollAmount (cfg : Config) (deltaY deltaTime : ℚ) : ℚ :=
  if momentumApplies cfg |deltaY| deltaTime then
    |deltaY| * (cfg.momentumMultiplier * velocityFactor |deltaY| deltaTime)
  else
    |deltaY|

/-- Scroll target: `current + amount` when the direction is up, otherwise
`current - amount`. -/
def targetScrollTop (current amount : ℚ) (dir : Direction) : ℚ :=
  if dir = .up then current + amount else current - amount

/-- `SwipeHandler._showGradient`: pulses the top overlay for direction `up`
and the bottom overlay for direction `down`, provided `enableGradient` and
the overlay node still exists; otherwise does nothing.  (The deferred
opacity-reset timeout only touches opacity and is not an observable of the
model.) -/
def showGradient (cfg : Config) (s : State) (dir : Direction) : List Cmd :=
  if !cfg.enableGradient then []
  else if dir = .up && s.overlayTop then [.gradientPulse .up]
  else if dir = .down && s.overlayBottom then [.gradientPulse .down]
  else []

/-- `SwipeHandler._handleVerticalScroll`: computes the momentum-adjusted
scroll amount, shows feedback, issues
`window.scrollTo({ top: Math.max(0, targetScrollTop) })`, and optionally
requests a section snap. -/
def handleVerticalScroll (cfg : Config) (s : State) (currentScrollTop : ℚ)
    (deltaY deltaTime : ℚ) (dir : Direction) : List Cmd :=
  let amount := scrollAmount cfg deltaY deltaTime
  let target := targetScrollTop currentScrollTop amount dir
  showGradient cfg s dir ++ [.scrollTo (max 0 target)] ++
    (if cfg.snapToSections then [.snap dir] else [])

/-- Result of dispatching one event: the successor state, the side effects
issued before returning, and whether an exception escaped the handler
(possible only when the external `onSwipe` callback throws: the handler body
has no try/catch, so the exception propagates to the event loop with all
state mutations made so far kept). -/
structure StepResult where
  state : State
  out : List Cmd
  threw : Bool
deriving DecidableEq, Repr

/-- `SwipeHandler._handleTouchEnd`.  Early-returns when no interaction is in
progress (`touchStartY === null && touchStartX === null`) or when
`e.changedTouches` is empty.  Otherwise computes the deltas, applies the
validity gate, invokes the external callback when configured (an exception
there aborts the rest of the handler, skipping `_resetTouch`), runs the
vertical-scroll stage when `verticalOnly` (the JS guard
`verticalOnly && swipeDirection` is `verticalOnly` alone, since
`_getSwipeDirection` always returns a truthy string), and finally resets the
touch state. -/
def handleTouchEnd (cfg : Config) (env : Env) (s : State)
    (touch : Option (ℚ × ℚ)) (cbThrows : Bool) : StepResult :=
  if s.touchStartY = none ∧ s.touchStartX = none then ⟨s, [], false⟩
  else
    match touch with
    | none => ⟨s, [], false⟩
    | some (x, y) =>
        let deltaX := x - s.touchStartX.getD 0
        let deltaY := y - s.touchStartY.getD 0
        let deltaTime := env.now - s.touchStartTime.getD 0
        if isValidSwipe cfg deltaX deltaY then
          let dir := getSwipeDirection cfg deltaX deltaY
          let cbOut : List Cmd :=
            if cfg.hasOnSwipe then [.invokeOnSwipe dir deltaX deltaY deltaTime]
            else []
          if cfg.hasOnSwipe && cbThrows then
            ⟨s, cbOut, true⟩
          else
            let scrollOut :=
              if cfg.verticalOnly then
                handleVerticalScroll cfg s env.scrollTop deltaY deltaTime dir
              else []
            ⟨resetTouch s, cbOut ++ scrollOut, false⟩
        else
          ⟨resetTouch s, [], false⟩

/-- `SwipeHandler._handleTouchCancel`: just `_resetTouch`. -/
def handleTouchCancel (s : State) : State :=
  resetTouch s

/-- `SwipeHandler.destroy`: removes and nulls the two overlay nodes.  It
does not touch the gesture-state fields, and `_bindEvents` listeners are
never removed, so later touch events are still dispatched to the handler. -/
def destroyHandler (s : State) : State :=
  { s with overlayTop := false, overlayBottom := false }

/-- Number of overlay DOM nodes currently attached for this handler. -/
def overlayNodes (s : State) : Nat :=
  (if s.overlayTop then 1 else 0) + (if s.overlayBottom then 1 else 0)

/-- Dispatch of one raw event to the corresponding bound handler. -/
def step (cfg : Config) (s : State) : Event → StepResult
  | .touchstart env touch => ⟨handleTouchStart env s touch, [], false⟩
  | .touchmove touch => ⟨handleTouchMove cfg s touch, [], false⟩
  | .touchend env touch cbThrows => handleTouchEnd cfg env s touch cbThrows
  | .touchcancel => ⟨handleTouchCancel s, [], false⟩
  | .destroy => ⟨destroyHandler s, [], false⟩

/-- Successor state after one event. -/
def stepState (cfg : Config) (s : State) (e : Event) : State :=
  (step cfg s e).state

/-- State after a sequence of events (the browser keeps dispatching events
even after a handler invocation threw). -/
def runState (cfg : Config) (s : State) : List Event → State
  | [] => s
  | e :: es => runState cfg (stepState cfg s e) es

/-- Concatenated side effects over a sequence of events. -/
def runOut (cfg : Config) (s : State) : List Event → List Cmd
  | [] => []
  | e :: es => (step cfg s e).out ++ runOut cfg (stepState cfg s e) es

end Swipe

namespace Swipe

/-! Shared derived definitions used by the theorems. -/

/-- Validity gate as worded by the spec: the interaction counts as a swipe
only if the axis constraint of the configured mode holds (vertical:
`|deltaY| > |deltaX|`; horizontal: `|deltaX| > |deltaY|`; any: always) and
the governing-axis absolute delta is at least `minSwipeDistance` (in any
mode the larger delta governs, a tie being governed by the vertical axis,
so the governing delta is the maximum). -/
def specValidSwipe (cfg : Config) (deltaX deltaY : ℚ) : Prop :=
  if cfg.verticalOnly = true then
    |deltaY| > |deltaX| ∧ |deltaY| ≥ cfg.minSwipeDistance
  else if cfg.horizontalOnly = true then
    |deltaX| > |deltaY| ∧ |deltaX| ≥ cfg.minSwipeDistance
  else
    max |deltaX| |deltaY| ≥ cfg.minSwipeDistance

/-- Whether a command list contains an invocation of the external `onSwipe`
callback. -/
def invokesCallback (cs : List Cmd) : Bool :=
  cs.any fun c =>
    match c with
    | .invokeOnSwipe _ _ _ _ => true
    | _ => false

/-- Any-axis configuration (`verticalOnly` and `horizontalOnly` both
false), otherwise the defaults. -/
def anyCfg : Config :=
  { DEFAULT_CONFIG with verticalOnly := false, horizontalOnly := false }

/-- Default configuration with an external `onSwipe` callback attached. -/
def cbCfg : Config :=
  { DEFAULT_CONFIG with hasOnSwipe := true }

/-- C3, counterexample: with axisMode = any, the exact tie `deltaX = 40`,
`deltaY = -40` classifies to the horizontal branch, giving `right`, not the
vertical branch giving `up` as claimed: in `_getSwipeDirection` the tie
fails `absDeltaY > absDeltaX` and falls into the `else` (horizontal)
branch. -/
theorem anyMode_tie_cex :
    classify anyCfg 40 (-40) = some Direction.right
    ∧ some Direction.right ≠ some Direction.up := by
  constructor
  · norm_num [classify, isValidSwipe, getSwipeDirection, anyCfg, DEFAULT_CONFIG]
  · simp

/-- C3, amended: in axisMode = any, an exact tie of absolute deltas
resolves to the horizontal branch of `_getSwipeDirection` (direction
`right` or `left` according to the sign of `deltaX`); concretely
`deltaX = 40, deltaY = -40` classifies as `right`. -/
theorem anyMode_tie_horizontal (cfg : Config) (deltaX deltaY : ℚ)
    (hv : cfg.verticalOnly = false) (hh : cfg.horizontalOnly = false)
    (htie : |deltaY| = |deltaX|) :
    getSwipeDirection cfg deltaX deltaY =
      (if deltaX > 0 then Direction.right else Direction.left) := by
  simp [getSwipeDirection, hv, hh, htie]

/-- C3, witness for the amended theorem at `deltaX = 40, deltaY = -40`. -/
theorem anyMode_tie_horizontal_witness :
    anyCfg.verticalOnly = false ∧ anyCfg.horizontalOnly = false
    ∧ |(-40 : ℚ)| = |(40 : ℚ)|
    ∧ getSwipeDirection anyCfg 40 (-40) =
        (if (40 : ℚ) > 0 then Direction.right else Direction.left) :=
  ⟨rfl, rfl, by norm_num,
    anyMode_tie_horizontal anyCfg 40 (-40) rfl rfl (by norm_num)⟩

/-- C4: the end-to-end scenario on the default configuration: an
interaction from `(100, 500)` at `t = 0` to `(100, 440)` at `t = 100` has
`deltaY = -60`, classifies as `up`, takes the momentum branch (velocity
`0.6 > 0.5`), computes `scrollAmount = 60 * 2.5 * min(0.6, 2) = 90`, and
with `currentScrollTop = 200` issues `scrollTo 290`. -/
theorem default_end_to_end_scenario :
    classify DEFAULT_CONFIG 0 (-60) = some Direction.up
    ∧ momentumApplies DEFAULT_CONFIG 60 100 = true
    ∧ scrollAmount DEFAULT_CONFIG (-60) 100 = 90
    ∧ targetScrollTop 200 90 Direction.up = 290
    ∧ runOut DEFAULT_CONFIG (initState DEFAULT_CONFIG)
        [Event.touchstart ⟨0, 200⟩ (some (100, 500)),
         Event.touchend ⟨100, 200⟩ (some (100, 440)) false]
        = [Cmd.gradientPulse Direction.up, Cmd.scrollTo 290] := by
  refine ⟨?_, ?_, ?_, ?_, ?_⟩
  · norm_num [classify, isValidSwipe, getSwipeDirection, DEFAULT_CONFIG]
  · norm_num [momentumApplies, DEFAULT_CONFIG]
  · norm_num [scrollAmount, momentumApplies, velocityFactor, DEFAULT_CONFIG]
  · norm_num [targetScrollTop]
  · norm_num [runOut, runState, stepState, step, handleTouchStart,
      handleTouchEnd, handleVerticalScroll, scrollAmount, momentumApplies,
      velocityFactor, targetScrollTop, showGradient, isValidSwipe,
      getSwipeDirection, resetTouch, initState, DEFAULT_CONFIG]
    simp

/-- C9: with a zero elapsed time and a nonzero delta, the JS velocity
`|deltaY| / 0` is `Infinity`, so with momentum enabled the momentum branch
is taken, the clamped velocity factor is exactly `2`, and
`scrollAmount = |deltaY| * momentumMultiplier * 2`; the computation does
not fail. -/
theorem zero_elapsed_momentum (cfg : Config) (deltaY : ℚ)
    (hm : cfg.enableMomentum = true) (hdy : 0 < |deltaY|) :
    momentumApplies cfg |deltaY| 0 = true
    ∧ velocityFactor |deltaY| 0 = 2
    ∧ scrollAmount cfg deltaY 0 = |deltaY| * (cfg.momentumMultiplier * 2) := by
  refine ⟨?_, ?_, ?_⟩
  · simp [momentumApplies, hm, hdy]
  · simp [velocityFactor]
  · simp [scrollAmount, momentumApplies, velocityFactor, hm, hdy]

/-- C9, witness at the default configuration with `deltaY = -60`. -/
theorem zero_elapsed_momentum_witness :
    DEFAULT_CONFIG.enableMomentum = true ∧ (0 : ℚ) < |(-60 : ℚ)|
    ∧ (momentumApplies DEFAULT_CONFIG |(-60 : ℚ)| 0 = true
       ∧ velocityFactor |(-60 : ℚ)| 0 = 2
       ∧ scrollAmount DEFAULT_CONFIG (-60) 0 =
           |(-60 : ℚ)| * (DEFAULT_CONFIG.momentumMultiplier * 2)) :=
  ⟨rfl, by norm_num,
    zero_elapsed_momentum DEFAULT_CONFIG (-60) rfl (by norm_num)⟩

end Swipe

namespace Swipe

/-- State of a handler after an accepted touch-start at `(100, 500)`,
`t = 0`, page offset `200`, with an external callback configured. -/
def startedState : State :=
  handleTouchStart ⟨0, 200⟩ (initState cbCfg) (some (100, 500))

/-- C1, counterexample: when the configured `onSwipe` callback throws
during a completed valid swipe (here `(100,500) → (100,440)` in 100 ms),
the exception escapes `_handleTouchEnd` (which has no try/catch) and
`_resetTouch` is skipped, so the origin is still set afterwards — the
claimed catch-and-reset behaviour does not hold. -/
theorem onSwipe_throw_cex :
    (step cbCfg startedState (.touchend ⟨100, 200⟩ (some (100, 440)) true)).threw = true
    ∧ (step cbCfg startedState
        (.touchend ⟨100, 200⟩ (some (100, 440)) true)).state.touchStartY = some 500
    ∧ some (500 : ℚ) ≠ none := by
  refine ⟨?_, ?_, by simp⟩
  · norm_num [step, handleTouchEnd, startedState, handleTouchStart, initState,
      isValidSwipe, cbCfg, DEFAULT_CONFIG]
    simp
  · norm_num [step, handleTouchEnd, startedState, handleTouchStart, initState,
      isValidSwipe, cbCfg, DEFAULT_CONFIG]
    simp

/-- C1, amended: when the external `onSwipe` callback throws on a valid
swipe, the exception propagates out of the touch-end handler
(`threw = true`) and the gesture state is left unchanged — in particular
not reset; nevertheless the next accepted touch-start overwrites every
gesture field, so the subsequent interaction proceeds exactly as it would
from a reset state. -/
theorem onSwipe_throw_propagates (cfg : Config) (env : Env) (s : State)
    (x y : ℚ) (hcb : cfg.hasOnSwipe = true)
    (hprog : ¬(s.touchStartY = none ∧ s.touchStartX = none))
    (hvalid : isValidSwipe cfg (x - s.touchStartX.getD 0)
        (y - s.touchStartY.getD 0) = true) :
    (handleTouchEnd cfg env s (some (x, y)) true).threw = true
    ∧ (handleTouchEnd cfg env s (some (x, y)) true).state = s
    ∧ ∀ (env2 : Env) (px py : ℚ),
        stepState cfg (handleTouchEnd cfg env s (some (x, y)) true).state
          (.touchstart env2 (some (px, py)))
        = stepState cfg (resetTouch s) (.touchstart env2 (some (px, py))) := by
  have hend : handleTouchEnd cfg env s (some (x, y)) true =
      ⟨s, [.invokeOnSwipe
            (getSwipeDirection cfg (x - s.touchStartX.getD 0) (y - s.touchStartY.getD 0))
            (x - s.touchStartX.getD 0) (y - s.touchStartY.getD 0)
            (env.now - s.touchStartTime.getD 0)], true⟩ := by
    unfold handleTouchEnd
    simp [hprog, hvalid, hcb]
  refine ⟨by rw [hend], by rw [hend], ?_⟩
  intro env2 px py
  rw [hend]
  rfl

/-- C1, witness for the amended theorem at the concrete throwing swipe. -/
theorem onSwipe_throw_propagates_witness :
    cbCfg.hasOnSwipe = true
    ∧ ¬(startedState.touchStartY = none ∧ startedState.touchStartX = none)
    ∧ isValidSwipe cbCfg (100 - startedState.touchStartX.getD 0)
        (440 - startedState.touchStartY.getD 0) = true
    ∧ (handleTouchEnd cbCfg ⟨100, 200⟩ startedState (some (100, 440)) true).threw = true
    ∧ (handleTouchEnd cbCfg ⟨100, 200⟩ startedState (some (100, 440)) true).state
        = startedState := by
  have h1 : cbCfg.hasOnSwipe = true := rfl
  have h2 : ¬(startedState.touchStartY = none ∧ startedState.touchStartX = none) := by
    simp [startedState, handleTouchStart, initState]
  have h3 : isValidSwipe cbCfg (100 - startedState.touchStartX.getD 0)
      (440 - startedState.touchStartY.getD 0) = true := by
    norm_num [startedState, handleTouchStart, initState, isValidSwipe, cbCfg,
      DEFAULT_CONFIG]
  have main := onSwipe_throw_propagates cbCfg ⟨100, 200⟩ startedState 100 440 h1 h2 h3
  exact ⟨h1, h2, h3, main.1, main.2.1⟩

/-- C6, counterexample: a touch-end whose `changedTouches` list is empty
returns before `_resetTouch`, so the origin set by the preceding
touch-start is not cleared, contradicting the claim that every end event
clears it. -/
theorem origin_malformed_end_cex :
    (runState DEFAULT_CONFIG (initState DEFAULT_CONFIG)
      [.touchstart ⟨0, 200⟩ (some (100, 500)),
       .touchend ⟨100, 200⟩ none false]).touchStartY = some 500
    ∧ some (500 : ℚ) ≠ none := by
  refine ⟨?_, by simp⟩
  norm_num [runState, stepState, step, handleTouchStart, handleTouchEnd,
    initState, DEFAULT_CONFIG]

/-- C6, amended: the origin is set by every accepted touch-start and
cleared by every touch-cancel and by every touch-end that carries a
changed touch and whose callback does not throw; but a touch-end with an
empty touch list, or one whose configured callback throws on a valid
swipe, leaves the gesture state (origin included) unchanged. -/
theorem origin_lifecycle (cfg : Config) (env : Env) (s : State) (x y : ℚ)
    (cb : Bool) :
    ((stepState cfg s (.touchstart env (some (x, y)))).touchStartX = some x
      ∧ (stepState cfg s (.touchstart env (some (x, y)))).touchStartY = some y
      ∧ (stepState cfg s (.touchstart env (some (x, y)))).touchStartTime = some env.now)
    ∧ ((stepState cfg s .touchcancel).touchStartX = none
      ∧ (stepState cfg s .touchcancel).touchStartY = none
      ∧ (stepState cfg s .touchcancel).touchStartTime = none)
    ∧ (¬(s.touchStartY = none ∧ s.touchStartX = none) →
        ((step cfg s (.touchend env (some (x, y)) false)).state.touchStartX = none
         ∧ (step cfg s (.touchend env (some (x, y)) false)).state.touchStartY = none
         ∧ (step cfg s (.touchend env (some (x, y)) false)).state.touchStartTime = none))
    ∧ (step cfg s (.touchend env none cb)).state = s
    ∧ (cfg.hasOnSwipe = true →
        isValidSwipe cfg (x - s.touchStartX.getD 0) (y - s.touchStartY.getD 0) = true →
        ¬(s.touchStartY = none ∧ s.touchStartX = none) →
        (step cfg s (.touchend env (some (x, y)) true)).state = s) := by
  refine ⟨⟨rfl, rfl, rfl⟩, ⟨rfl, rfl, rfl⟩, ?_, ?_, ?_⟩
  · intro hprog
    have hstep : (step cfg s (.touchend env (some (x, y)) false)).state = resetTouch s := by
      show (handleTouchEnd cfg env s (some (x, y)) false).state = resetTouch s
      unfold handleTouchEnd
      simp only [if_neg hprog]
      split
      · simp
      · rfl
    exact ⟨by rw [hstep]; rfl, by rw [hstep]; rfl, by rw [hstep]; rfl⟩
  · show (handleTouchEnd cfg env s none cb).state = s
    unfold handleTouchEnd
    split
    · rfl
    · rfl
  · intro hcb hvalid hprog
    show (handleTouchEnd cfg env s (some (x, y)) true).state = s
    unfold handleTouchEnd
    simp [hprog, hvalid, hcb]

/-- C6, witness for the amended lifecycle theorem at a concrete
in-progress state. -/
theorem origin_lifecycle_witness :
    ¬(startedState.touchStartY = none ∧ startedState.touchStartX = none)
    ∧ cbCfg.hasOnSwipe = true
    ∧ isValidSwipe cbCfg (100 - startedState.touchStartX.getD 0)
        (440 - startedState.touchStartY.getD 0) = true
    ∧ (step cbCfg startedState (.touchend ⟨100, 200⟩ (some (100, 440)) false)).state.touchStartY = none
    ∧ (step cbCfg startedState (.touchend ⟨100, 200⟩ (some (100, 440)) true)).state
        = startedState := by
  have hprog : ¬(startedState.touchStartY = none ∧ startedState.touchStartX = none) := by
    simp [startedState, handleTouchStart, initState]
  have hcb : cbCfg.hasOnSwipe = true := rfl
  have hvalid : isValidSwipe cbCfg (100 - startedState.touchStartX.getD 0)
      (440 - startedState.touchStartY.getD 0) = true := by
    norm_num [startedState, handleTouchStart, initState, isValidSwipe, cbCfg,
      DEFAULT_CONFIG]
  have main := origin_lifecycle cbCfg ⟨100, 200⟩ startedState 100 440 false
  exact ⟨hprog, hcb, hvalid, (main.2.2.1 hprog).2.1, main.2.2.2.2 hcb hvalid hprog⟩

/-- C7, counterexample: after `destroy()`, the touch listeners are still
bound (nothing ever calls removeEventListener), so a subsequent
start-to-end swipe is processed and still issues a scroll command —
contradicting the claim that touch events after destroy are no-ops.  (Only
the gradient pulse disappears, because the overlay nodes are gone.) -/
theorem destroy_after_events_cex :
    runOut DEFAULT_CONFIG (initState DEFAULT_CONFIG)
      [.destroy, .touchstart ⟨0, 200⟩ (some (100, 500)),
       .touchend ⟨100, 200⟩ (some (100, 440)) false]
      = [Cmd.scrollTo 290]
    ∧ [Cmd.scrollTo 290] ≠ ([] : List Cmd) := by
  refine ⟨?_, by simp⟩
  norm_num [runOut, runState, stepState, step, destroyHandler,
    handleTouchStart, handleTouchEnd, handleVerticalScroll, scrollAmount,
    momentumApplies, velocityFactor, targetScrollTop, showGradient,
    isValidSwipe, getSwipeDirection, resetTouch, initState, DEFAULT_CONFIG]
  simp

/-- C7, amended: `destroy()` is idempotent and removes both overlay nodes
(a second call is a no-op and cannot error, and zero overlay nodes
remain), but it does not unbind the touch listeners and does not cancel
the pending feedback-hide timers: a touch event delivered after destroy is
processed normally — a touch-start still records a new origin, and a
subsequent valid swipe still issues a scroll command (only the gradient
pulse is suppressed because the overlay references are null). -/
theorem destroy_idempotent_overlays (cfg : Config) (s : State) (env : Env)
    (x y : ℚ) :
    destroyHandler (destroyHandler s) = destroyHandler s
    ∧ overlayNodes (destroyHandler s) = 0
    ∧ (stepState cfg (destroyHandler s) (.touchstart env (some (x, y)))).touchStartX = some x
    ∧ runOut DEFAULT_CONFIG (destroyHandler (initState DEFAULT_CONFIG))
        [.touchstart ⟨0, 200⟩ (some (100, 500)),
         .touchend ⟨100, 200⟩ (some (100, 440)) false]
      = [Cmd.scrollTo 290] := by
  refine ⟨rfl, rfl, rfl, ?_⟩
  norm_num [runOut, runState, stepState, step, destroyHandler,
    handleTouchStart, handleTouchEnd, handleVerticalScroll, scrollAmount,
    momentumApplies, velocityFactor, targetScrollTop, showGradient,
    isValidSwipe, getSwipeDirection, resetTouch, initState, DEFAULT_CONFIG]
  simp

end Swipe

namespace Swipe


lemma classify_isSome (cfg : Config) (deltaX deltaY : ℚ) :
    (classify cfg deltaX deltaY).isSome = isValidSwipe cfg deltaX deltaY := by
  unfold classify
  split <;> simp_all

lemma invokesCallback_nil : invokesCallback [] = false := rfl

lemma invokesCallback_invoke (dir : Direction) (a b c : ℚ) :
    invokesCallback [Cmd.invokeOnSwipe dir a b c] = true := rfl

lemma invokesCallback_cons_invoke (dir : Direction) (a b c : ℚ)
    (rest : List Cmd) :
    invokesCallback (Cmd.invokeOnSwipe dir a b c :: rest) = true := by
  simp [invokesCallback]

lemma invokesCallback_append (a b : List Cmd) :
    invokesCallback (a ++ b) = (invokesCallback a || invokesCallback b) := by
  simp [invokesCallback]

lemma invokesCallback_handleVerticalScroll (cfg : Config) (s : State)
    (cur deltaY deltaTime : ℚ) (dir : Direction) :
    invokesCallback (handleVerticalScroll cfg s cur deltaY deltaTime dir) = false := by
  unfold handleVerticalScroll showGradient
  split_ifs <;> simp [invokesCallback]

/-- C2: the interaction is classified as a swipe (direction present, and
the external callback invoked exactly when one is configured) if and only
if the axis constraint of the configured mode holds and the governing-axis
absolute delta reaches `minSwipeDistance`: the either-axis distance
disjunction of the code is equivalent to the governing-axis condition of
the spec under the
axis constraint (in particular a vertical-mode delta of
`minSwipeDistance - 1` is rejected and `minSwipeDistance` accepted, and a
vertical-mode interaction with `|deltaX| > |deltaY|` is rejected at any
distance). -/
theorem validity_gate_spec (cfg : Config) (deltaX deltaY : ℚ)
    (hmode : ¬(cfg.verticalOnly = true ∧ cfg.horizontalOnly = true)) :
    ((classify cfg deltaX deltaY).isSome = true ↔ specValidSwipe cfg deltaX deltaY)
    ∧ ∀ (env : Env) (s : State) (sx sy : ℚ) (cb : Bool),
        s.touchStartX = some sx → s.touchStartY = some sy →
        invokesCallback
            (handleTouchEnd cfg env s (some (sx + deltaX, sy + deltaY)) cb).out
          = (cfg.hasOnSwipe && isValidSwipe cfg deltaX deltaY) := by
  constructor
  · rw [classify_isSome]
    unfold isValidSwipe specValidSwipe
    cases hv : cfg.verticalOnly with
    | true =>
        have hh : cfg.horizontalOnly = false := by
          cases hh2 : cfg.horizontalOnly
          · rfl
          · exact absurd ⟨hv, hh2⟩ hmode
        simp [hv, hh]
        intro h1 h2
        linarith
    | false =>
        cases hh : cfg.horizontalOnly with
        | true =>
            simp [hv, hh]
            intro h1 h2
            linarith
        | false =>
            simp [hv, hh, le_max_iff]
            tauto
  · intro env s sx sy cb hx hy
    have hprog : ¬((some sy : Option ℚ) = none ∧ (some sx : Option ℚ) = none) := by
      simp
    unfold handleTouchEnd
    rw [hx, hy]
    simp only [Option.getD_some, add_sub_cancel_left, if_neg hprog]
    cases hvalid : isValidSwipe cfg deltaX deltaY with
    | false =>
        simp [hvalid, invokesCallback_nil]
    | true =>
        cases hcb : cfg.hasOnSwipe with
        | false =>
            simp only [hvalid, hcb, Bool.false_and, Bool.false_eq_true,
              if_false, List.nil_append]
            cases hvert : cfg.verticalOnly <;>
              simp [hvert, invokesCallback_nil,
                invokesCallback_handleVerticalScroll]
        | true =>
            cases cb <;>
              simp [hvalid, hcb, invokesCallback_nil, invokesCallback_invoke,
                invokesCallback_cons_invoke, invokesCallback_append,
                invokesCallback_handleVerticalScroll]

/-- C2, witness at the default vertical configuration with a callback,
`deltaX = 0`, `deltaY = -60`, on a concrete in-progress state. -/
theorem validity_gate_spec_witness :
    ¬(cbCfg.verticalOnly = true ∧ cbCfg.horizontalOnly = true)
    ∧ startedState.touchStartX = some 100
    ∧ startedState.touchStartY = some 500
    ∧ ((classify cbCfg 0 (-60)).isSome = true ↔ specValidSwipe cbCfg 0 (-60))
    ∧ invokesCallback
        (handleTouchEnd cbCfg ⟨100, 200⟩ startedState
          (some (100 + 0, 500 + -60)) false).out
      = (cbCfg.hasOnSwipe && isValidSwipe cbCfg 0 (-60)) := by
  have hmode : ¬(cbCfg.verticalOnly = true ∧ cbCfg.horizontalOnly = true) := by
    simp [cbCfg, DEFAULT_CONFIG]
  have main := validity_gate_spec cbCfg 0 (-60) hmode
  exact ⟨hmode, rfl, rfl, main.1,
    main.2 ⟨100, 200⟩ startedState 100 500 false rfl rfl⟩

end Swipe

namespace Swipe


/-- The clamped velocity factor never exceeds the cap 2. -/
lemma velocityFactor_le_two (absDY t : ℚ) : velocityFactor absDY t ≤ 2 := by
  unfold velocityFactor
  split
  · exact le_refl 2
  · exact min_le_right _ _

/-- When the momentum gate holds, the velocity factor exceeds the
threshold 1/2. -/
lemma half_lt_velocityFactor (cfg : Config) (absDY t : ℚ)
    (hmom : momentumApplies cfg absDY t = true) :
    1/2 < velocityFactor absDY t := by
  unfold momentumApplies at hmom
  by_cases ht : t = 0
  · simp [velocityFactor, ht]
    norm_num
  · simp only [if_neg ht, Bool.and_eq_true, decide_eq_true_eq] at hmom
    simp only [velocityFactor, if_neg ht]
    exact lt_min hmom.2 (by norm_num)

/-- Decreasing a nonnegative elapsed time cannot decrease the velocity
factor. -/
lemma velocityFactor_mono (absDY t₁ t₂ : ℚ) (h0 : 0 ≤ absDY)
    (ht2 : 0 ≤ t₂) (h12 : t₂ ≤ t₁) (ht1 : t₁ ≠ 0) :
    velocityFactor absDY t₁ ≤ velocityFactor absDY t₂ := by
  unfold velocityFactor
  have ht1pos : 0 < t₁ := lt_of_le_of_ne (le_trans ht2 h12) (Ne.symm ht1)
  by_cases ht : t₂ = 0
  · simp only [if_neg ht1, if_pos ht]
    exact min_le_right _ _
  · have ht2pos : 0 < t₂ := lt_of_le_of_ne ht2 (Ne.symm ht)
    simp only [if_neg ht1, if_neg ht]
    refine min_le_min ?_ le_rfl
    gcongr

/-- The momentum gate survives a decrease of nonnegative elapsed time. -/
lemma momentumApplies_mono (cfg : Config) (absDY t₁ t₂ : ℚ) (h0 : 0 ≤ absDY)
    (ht2 : 0 ≤ t₂) (h12 : t₂ ≤ t₁)
    (h : momentumApplies cfg absDY t₁ = true) :
    momentumApplies cfg absDY t₂ = true := by
  unfold momentumApplies at h ⊢
  by_cases ht1 : t₁ = 0
  · have ht20 : t₂ = 0 := le_antisymm (ht1 ▸ h12) ht2
    rw [ht20]
    rwa [ht1] at h
  · have ht1pos : 0 < t₁ := lt_of_le_of_ne (le_trans ht2 h12) (Ne.symm ht1)
    simp only [if_neg ht1, Bool.and_eq_true, decide_eq_true_eq] at h
    have hdy : 0 < absDY := by
      rcases h with ⟨-, hv⟩
      have hvpos : 0 < absDY / t₁ := lt_trans (by norm_num) hv
      have hprod := mul_pos hvpos ht1pos
      rwa [div_mul_cancel₀ _ ht1] at hprod
    by_cases ht : t₂ = 0
    · simp [ht, h.1, hdy]
    · have ht2pos : 0 < t₂ := lt_of_le_of_ne ht2 (Ne.symm ht)
      simp only [if_neg ht, Bool.and_eq_true, decide_eq_true_eq]
      refine ⟨h.1, lt_of_lt_of_le h.2 ?_⟩
      gcongr

/-- C5: with momentum enabled and the default-range multiplier, for a
fixed delta the computed scroll amount is monotonically non-decreasing as
elapsed time decreases (velocity increases), and for every elapsed time the
amount is capped by `|deltaY| * momentumMultiplier * 2`, the contribution
of the clamped velocity factor never exceeding that of velocity 2. -/
theorem scrollAmount_monotone_capped (cfg : Config) (deltaY t₁ t₂ : ℚ)
    (hm : cfg.enableMomentum = true) (hmul : 2 ≤ cfg.momentumMultiplier)
    (hmin : cfg.minSwipeDistance ≤ |deltaY|)
    (ht2 : 0 ≤ t₂) (h12 : t₂ ≤ t₁) :
    scrollAmount cfg deltaY t₁ ≤ scrollAmount cfg deltaY t₂
    ∧ ∀ t : ℚ, scrollAmount cfg deltaY t ≤
        |deltaY| * (cfg.momentumMultiplier * 2) := by
  have habs : (0:ℚ) ≤ |deltaY| := abs_nonneg _
  constructor
  · unfold scrollAmount
    cases hmom1 : momentumApplies cfg |deltaY| t₁ with
    | true =>
        have hmom2 := momentumApplies_mono cfg |deltaY| t₁ t₂ habs ht2 h12 hmom1
        simp only [hmom1, hmom2, if_pos rfl]
        by_cases ht1 : t₁ = 0
        · have : t₂ = 0 := le_antisymm (ht1 ▸ h12) ht2
          rw [this, ht1]
        · have hvf := velocityFactor_mono |deltaY| t₁ t₂ habs ht2 h12 ht1
          have hmulpos : (0:ℚ) ≤ cfg.momentumMultiplier := by linarith
          exact mul_le_mul_of_nonneg_left
            (mul_le_mul_of_nonneg_left hvf hmulpos) habs
    | false =>
        simp only [hmom1, Bool.false_eq_true, if_false]
        cases hmom2 : momentumApplies cfg |deltaY| t₂ with
        | false => simp [hmom2]
        | true =>
            simp only [hmom2, if_pos rfl]
            have h2 := half_lt_velocityFactor cfg |deltaY| t₂ hmom2
            have hvpos : (0:ℚ) < velocityFactor |deltaY| t₂ := by linarith
            have hm1 : (1:ℚ) ≤ cfg.momentumMultiplier * velocityFactor |deltaY| t₂ := by
              nlinarith
            calc |deltaY| = |deltaY| * 1 := by ring
              _ ≤ |deltaY| * (cfg.momentumMultiplier * velocityFactor |deltaY| t₂) :=
                  mul_le_mul_of_nonneg_left hm1 habs
  · intro t
    unfold scrollAmount
    cases hmom : momentumApplies cfg |deltaY| t with
    | true =>
        simp only [hmom, if_pos rfl]
        have hle := velocityFactor_le_two |deltaY| t
        have hmulpos : (0:ℚ) ≤ cfg.momentumMultiplier := by linarith
        exact mul_le_mul_of_nonneg_left
          (mul_le_mul_of_nonneg_left hle hmulpos) habs
    | false =>
        simp only [hmom, Bool.false_eq_true, if_false]
        have hm1 : (1:ℚ) ≤ cfg.momentumMultiplier * 2 := by linarith
        calc |deltaY| = |deltaY| * 1 := by ring
          _ ≤ |deltaY| * (cfg.momentumMultiplier * 2) :=
              mul_le_mul_of_nonneg_left hm1 habs

/-- C5, witness at the default configuration, `deltaY = -60`, elapsed
times 200 and 100 ms. -/
theorem scrollAmount_monotone_capped_witness :
    DEFAULT_CONFIG.enableMomentum = true
    ∧ (2:ℚ) ≤ DEFAULT_CONFIG.momentumMultiplier
    ∧ DEFAULT_CONFIG.minSwipeDistance ≤ |(-60:ℚ)|
    ∧ (0:ℚ) ≤ 100 ∧ (100:ℚ) ≤ 200
    ∧ (scrollAmount DEFAULT_CONFIG (-60) 200 ≤ scrollAmount DEFAULT_CONFIG (-60) 100
       ∧ ∀ t : ℚ, scrollAmount DEFAULT_CONFIG (-60) t ≤
           |(-60:ℚ)| * (DEFAULT_CONFIG.momentumMultiplier * 2)) :=
  ⟨rfl, by norm_num [DEFAULT_CONFIG], by norm_num [DEFAULT_CONFIG],
   by norm_num, by norm_num,
   scrollAmount_monotone_capped DEFAULT_CONFIG (-60) 200 100 rfl
     (by norm_num [DEFAULT_CONFIG]) (by norm_num [DEFAULT_CONFIG])
     (by norm_num) (by norm_num)⟩

end Swipe

namespace Swipe

/-- State over an appended event sequence. -/
lemma runState_append (cfg : Config) (s : State) (es1 es2 : List Event) :
    runState cfg s (es1 ++ es2) = runState cfg (runState cfg s es1) es2 := by
  induction es1 generalizing s with
  | nil => rfl
  | cons e rest ih =>
      simp only [List.cons_append, runState]
      exact ih (stepState cfg s e)

/-- Outputs over an appended event sequence. -/
lemma runOut_append (cfg : Config) (s : State) (es1 es2 : List Event) :
    runOut cfg s (es1 ++ es2)
      = runOut cfg s es1 ++ runOut cfg (runState cfg s es1) es2 := by
  induction es1 generalizing s with
  | nil => rfl
  | cons e rest ih =>
      simp only [List.cons_append, runOut, runState, List.append_eq,
        List.append_assoc]
      rw [ih (stepState cfg s e)]

/-- A touch-move can only flip the axis-lock flag; every other state field
is preserved. -/
lemma handleTouchMove_isScrolling (cfg : Config) (s : State)
    (t : Option (ℚ × ℚ)) :
    ∃ b, handleTouchMove cfg s t = { s with isScrolling := b } := by
  unfold handleTouchMove
  by_cases h : s.touchStartY = none
  · rw [if_pos h]
    exact ⟨s.isScrolling, rfl⟩
  · rw [if_neg h]
    cases t with
    | none => exact ⟨s.isScrolling, rfl⟩
    | some p =>
        obtain ⟨x, y⟩ := p
        dsimp only
        split
        · split
          · exact ⟨true, rfl⟩
          · split
            · exact ⟨true, rfl⟩
            · split
              · exact ⟨true, rfl⟩
              · exact ⟨s.isScrolling, rfl⟩
        · exact ⟨s.isScrolling, rfl⟩

/-- A whole sequence of touch-moves can only flip the axis-lock flag, and
emits no commands. -/
lemma runState_touchmove (cfg : Config) (s : State)
    (ms : List (Option (ℚ × ℚ))) :
    (∃ b, runState cfg s (ms.map Event.touchmove) = { s with isScrolling := b })
    ∧ runOut cfg s (ms.map Event.touchmove) = [] := by
  induction ms generalizing s with
  | nil => exact ⟨⟨s.isScrolling, rfl⟩, rfl⟩
  | cons m rest ih =>
      simp only [List.map_cons, runState, runOut, stepState, step]
      obtain ⟨b1, hb1⟩ := handleTouchMove_isScrolling cfg s m
      rw [hb1]
      obtain ⟨⟨b2, hb2⟩, hout⟩ := ih { s with isScrolling := b1 }
      exact ⟨⟨b2, hb2⟩, by rw [List.nil_append]; exact hout⟩

/-- C8: a start - moves - cancel sequence emits no command at all (no
SwipeResult, no callback invocation, no scroll), clears the origin, and
the state it leaves behaves identically to a fresh handler state: any
subsequent event sequence beginning with an accepted touch-start produces
exactly the same states and outputs as on a freshly constructed handler. -/
theorem cancel_discards_state (cfg : Config) (env : Env) (x y : ℚ)
    (ms : List (Option (ℚ × ℚ))) (env2 : Env) (px py : ℚ)
    (rest : List Event) :
    runOut cfg (initState cfg)
      (Event.touchstart env (some (x, y)) :: ms.map Event.touchmove
        ++ [Event.touchcancel]) = []
    ∧ (runState cfg (initState cfg)
        (Event.touchstart env (some (x, y)) :: ms.map Event.touchmove
          ++ [Event.touchcancel])).touchStartX = none
    ∧ (runState cfg (initState cfg)
        (Event.touchstart env (some (x, y)) :: ms.map Event.touchmove
          ++ [Event.touchcancel])).touchStartY = none
    ∧ runState cfg
        (runState cfg (initState cfg)
          (Event.touchstart env (some (x, y)) :: ms.map Event.touchmove
            ++ [Event.touchcancel]))
        (Event.touchstart env2 (some (px, py)) :: rest)
      = runState cfg (initState cfg)
          (Event.touchstart env2 (some (px, py)) :: rest)
    ∧ runOut cfg
        (runState cfg (initState cfg)
          (Event.touchstart env (some (x, y)) :: ms.map Event.touchmove
            ++ [Event.touchcancel]))
        (Event.touchstart env2 (some (px, py)) :: rest)
      = runOut cfg (initState cfg)
          (Event.touchstart env2 (some (px, py)) :: rest) := by
  obtain ⟨⟨b, hb⟩, hout⟩ := runState_touchmove cfg
    (stepState cfg (initState cfg) (Event.touchstart env (some (x, y)))) ms
  have hP : runState cfg (initState cfg)
      (Event.touchstart env (some (x, y)) :: ms.map Event.touchmove
        ++ [Event.touchcancel])
      = { touchStartX := none, touchStartY := none, touchStartTime := none,
          lastScrollTop := env.scrollTop, isScrolling := false,
          overlayTop := cfg.showVisualFeedback && cfg.enableGradient,
          overlayBottom := cfg.showVisualFeedback && cfg.enableGradient } := by
    simp only [runState, List.append_eq, runState_append]
    rw [hb]
    rfl
  have hO : runOut cfg (initState cfg)
      (Event.touchstart env (some (x, y)) :: ms.map Event.touchmove
        ++ [Event.touchcancel]) = [] := by
    show ([] : List Cmd) ++ runOut cfg
        (stepState cfg (initState cfg) (Event.touchstart env (some (x, y))))
        (ms.map Event.touchmove ++ [Event.touchcancel]) = []
    rw [runOut_append, hout, hb]
    rfl
  have hstep : stepState cfg
      (runState cfg (initState cfg)
        (Event.touchstart env (some (x, y)) :: ms.map Event.touchmove
          ++ [Event.touchcancel]))
      (Event.touchstart env2 (some (px, py)))
      = stepState cfg (initState cfg) (Event.touchstart env2 (some (px, py))) := by
    rw [hP]
    rfl
  refine ⟨hO, by rw [hP], by rw [hP], ?_, ?_⟩
  · show runState cfg
        (stepState cfg
          (runState cfg (initState cfg)
            (Event.touchstart env (some (x, y)) :: ms.map Event.touchmove
              ++ [Event.touchcancel]))
          (Event.touchstart env2 (some (px, py)))) rest
      = runState cfg
          (stepState cfg (initState cfg) (Event.touchstart env2 (some (px, py)))) rest
    rw [hstep]
  · show ([] : List Cmd) ++ runOut cfg
        (stepState cfg
          (runState cfg (initState cfg)
            (Event.touchstart env (some (x, y)) :: ms.map Event.touchmove
              ++ [Event.touchcancel]))
          (Event.touchstart env2 (some (px, py)))) rest
      = ([] : List Cmd) ++ runOut cfg
          (stepState cfg (initState cfg) (Event.touchstart env2 (some (px, py)))) rest
    rw [hstep]

/-- Touch-end outputs depend on the state only through the origin sample
and the overlay fields (in particular not through the axis-lock flag set
by touch-moves, nor through `lastScrollTop`). -/
lemma handleTouchEnd_out_congr (cfg : Config) (env : Env) (s1 s2 : State)
    (t : Option (ℚ × ℚ)) (cb : Bool)
    (h1 : s1.touchStartX = s2.touchStartX)
    (h2 : s1.touchStartY = s2.touchStartY)
    (h3 : s1.touchStartTime = s2.touchStartTime)
    (h4 : s1.overlayTop = s2.overlayTop)
    (h5 : s1.overlayBottom = s2.overlayBottom) :
    (handleTouchEnd cfg env s1 t cb).out = (handleTouchEnd cfg env s2 t cb).out := by
  cases t with
  | none =>
      unfold handleTouchEnd
      rw [h1, h2]
      split <;> rfl
  | some p =>
      obtain ⟨x, y⟩ := p
      unfold handleTouchEnd handleVerticalScroll showGradient
      rw [h1, h2, h3, h4, h5]
      split
      · rfl
      · dsimp only
        split
        · split <;> rfl
        · rfl

/-- C10: the outcome of an interaction (callback invocation with its
deltas, gradient pulse, scroll command, snap request) depends only on the
start sample and the end sample: any two move sequences in between,
whatever positions they carry and whatever axis-lock flag they set,
produce exactly the same outputs. -/
theorem move_independence (cfg : Config) (s : State) (env : Env) (x y : ℚ)
    (ms1 ms2 : List (Option (ℚ × ℚ))) (envE : Env) (te : Option (ℚ × ℚ))
    (cb : Bool) :
    runOut cfg s (Event.touchstart env (some (x, y)) :: ms1.map Event.touchmove
        ++ [Event.touchend envE te cb])
    = runOut cfg s (Event.touchstart env (some (x, y)) :: ms2.map Event.touchmove
        ++ [Event.touchend envE te cb]) := by
  have key : ∀ ms : List (Option (ℚ × ℚ)),
      runOut cfg s (Event.touchstart env (some (x, y)) :: ms.map Event.touchmove
        ++ [Event.touchend envE te cb])
      = (handleTouchEnd cfg envE
          (stepState cfg s (Event.touchstart env (some (x, y)))) te cb).out := by
    intro ms
    obtain ⟨⟨b, hb⟩, hout⟩ := runState_touchmove cfg
      (stepState cfg s (Event.touchstart env (some (x, y)))) ms
    show ([] : List Cmd) ++ runOut cfg
        (stepState cfg s (Event.touchstart env (some (x, y))))
        (ms.map Event.touchmove ++ [Event.touchend envE te cb])
      = _
    rw [runOut_append, hout, hb]
    simp only [List.nil_append]
    show (handleTouchEnd cfg envE
        ({ stepState cfg s (Event.touchstart env (some (x, y)))
            with isScrolling := b }) te cb).out ++ ([] : List Cmd) = _
    rw [List.append_nil]
    exact handleTouchEnd_out_congr cfg envE _ _ te cb rfl rfl rfl rfl rfl
  rw [key ms1, key ms2]

end Swipe
